import Mathlib

/-!
Verification development for the customer-churn analytics platform
(`backend/data_pipeline/etl.py`, `backend/models/churn_predictor.py`).

Numbers are modelled as exact rationals (`ℚ`); the Python/pandas code uses
IEEE floats, whose rounding we idealise.  Dates are modelled as ISO date
strings where the code keeps them as strings (SQL comparison is then the
lexicographic string order, which agrees with chronological order on ISO
dates), and as integer day numbers once `pd.to_datetime` has parsed them;
the parsing routine and the current clock are explicit parameters.
External numerical library routines (the pandas sample standard deviation,
sklearn estimator fitting / `predict_proba`, the fitted `StandardScaler`)
are treated as external numerical contracts and appear as explicit function
parameters of the embedded pipeline.
-/

namespace Churn

/-- Round-half-to-even on rationals (the rounding used by numpy/pandas
`round`). -/
def roundHalfEven (q : ℚ) : ℤ :=
  let f := ⌊q⌋
  let r := q - f
  if r < 1/2 then f
  else if r > 1/2 then f + 1
  else if f % 2 = 0 then f else f + 1

/-- Python `round(x, 4)`: round to 4 decimal places. -/
def round4 (q : ℚ) : ℚ := (roundHalfEven (q * 10000) : ℚ) / 10000

/-- Python `round(x, 4)` lifted to nullable cells (NaN stays NaN). -/
def round4Opt (q : Option ℚ) : Option ℚ := q.map round4

/-! ## Database rows (`customers`, `churn_events`, `usage_metrics`) -/

/-- A row of the `customers` table (schema columns as selected by
`extract_customer_data`). -/
structure CustomerRow where
  customer_id : ℤ
  customer_code : String
  signup_date : String
  age : ℚ
  gender : String
  location : String
  subscription_type : String
  monthly_charges : ℚ
  total_charges : ℚ
  contract_length : String
  payment_method : String
  paperless_billing : Bool
  deriving DecidableEq, Repr

/-- A row of the `churn_events` table (the columns the ETL query reads). -/
structure ChurnEvent where
  customer_id : ℤ
  churn_date : String
  churn_reason : String
  deriving DecidableEq, Repr

/-- A row of the `usage_metrics` table. -/
structure UsageRow where
  customer_id : ℤ
  metric_date : String
  login_count : ℚ
  session_duration_minutes : ℚ
  features_used : ℚ
  support_tickets : ℚ
  data_usage_gb : ℚ
  deriving DecidableEq, Repr

/-- The relational store the ETL pipeline reads from. -/
structure Database where
  customers : List CustomerRow
  churn_events : List ChurnEvent
  deriving Repr

/-! ## `ChurnETLPipeline.extract_customer_data` -/

/-- A row of the customer extract: the selected customer columns plus the
`CASE WHEN ch.customer_id IS NOT NULL THEN 1 ELSE 0 END` churned flag and
the (nullable) joined churn-event columns. -/
structure ExtractedRow where
  customer_id : ℤ
  customer_code : String
  signup_date : String
  age : ℚ
  gender : String
  location : String
  subscription_type : String
  monthly_charges : ℚ
  total_charges : ℚ
  contract_length : String
  payment_method : String
  paperless_billing : Bool
  churned : ℤ
  churn_date : Option String
  churn_reason : Option String
  deriving DecidableEq, Repr

/-- The extract row built from a customer row and an optional matching
churn event. -/
def mkExtractedRow (c : CustomerRow) (e : Option ChurnEvent) : ExtractedRow :=
  { customer_id := c.customer_id
    customer_code := c.customer_code
    signup_date := c.signup_date
    age := c.age
    gender := c.gender
    location := c.location
    subscription_type := c.subscription_type
    monthly_charges := c.monthly_charges
    total_charges := c.total_charges
    contract_length := c.contract_length
    payment_method := c.payment_method
    paperless_billing := c.paperless_billing
    churned := match e with | some _ => 1 | none => 0
    churn_date := e.map (·.churn_date)
    churn_reason := e.map (·.churn_reason) }

/-- The `LEFT JOIN churn_events ch ON c.customer_id = ch.customer_id`:
one output row per matching event, or a single all-null-padded row when
no event matches. -/
def leftJoinCustomer (events : List ChurnEvent) (c : CustomerRow) :
    List ExtractedRow :=
  match events.filter (fun e => e.customer_id = c.customer_id) with
  | [] => [mkExtractedRow c none]
  | ms => ms.map (fun e => mkExtractedRow c (some e))

/-- Python truthiness of an optional string (`if start_date and end_date:`):
`None` and the empty string are falsy. -/
def truthy : Option String → Bool
  | none => false
  | some s => s ≠ ""

/-- Embedding of `ChurnETLPipeline.extract_customer_data`:
left-join customers with churn events; append the
`WHERE c.signup_date BETWEEN start AND end` filter only when both bounds
are truthy. -/
def extractCustomerData (db : Database) (start_date end_date : Option String) :
    List ExtractedRow :=
  let joined := db.customers.flatMap (leftJoinCustomer db.churn_events)
  if truthy start_date && truthy end_date then
    joined.filter (fun r =>
      decide (start_date.getD "" ≤ r.signup_date) &&
      decide (r.signup_date ≤ end_date.getD ""))
  else joined

/-! ## `ChurnETLPipeline.transform_features` -/

/-- The aggregation dictionary passed to `usage_df.groupby(customer_id).agg`,
transliterated: each metric column with its list of aggregation operations. -/
def aggSpec : List (String × List String) :=
  [("login_count", ["mean", "sum", "std"]),
   ("session_duration_minutes", ["mean", "sum", "std"]),
   ("features_used", ["mean", "max", "std"]),
   ("support_tickets", ["sum", "mean"]),
   ("data_usage_gb", ["mean", "sum", "std"])]

/-- The flattened aggregate column names (underscore-joined, `join(col)`). -/
def aggColumnNames : List String :=
  aggSpec.flatMap (fun p => p.2.map (fun op => p.1 ++ "_" ++ op))

/-- The value of a named usage metric in a usage row. -/
def metricValue (m : String) (u : UsageRow) : ℚ :=
  if m = "login_count" then u.login_count
  else if m = "session_duration_minutes" then u.session_duration_minutes
  else if m = "features_used" then u.features_used
  else if m = "support_tickets" then u.support_tickets
  else u.data_usage_gb

/-- Mean of a nonempty list of rationals (pandas `mean`). -/
def listMean (xs : List ℚ) : ℚ := xs.sum / xs.length

/-- Max of a list of rationals (pandas `max`; groups are nonempty). -/
def listMax : List ℚ → ℚ
  | [] => 0
  | x :: t => t.foldl max x

/-- One aggregation operation applied to the values of a group.  `stdFn` is
the sample standard deviation of the external library (ddof = 1); it returns
`none` (NaN) on singleton groups, as pandas does. -/
def applyAgg (stdFn : List ℚ → Option ℚ) (op : String) (xs : List ℚ) :
    Option ℚ :=
  if op = "mean" then some (listMean xs)
  else if op = "sum" then some xs.sum
  else if op = "max" then some (listMax xs)
  else stdFn xs

/-- The aggregated usage row for one `customer_id` group, as an association
list from flattened column name to (nullable) value, each value rounded to
4 decimals (`.agg(...).round(4)`); `none` when the customer has no usage
rows (no group, so the left join pads with NaN). -/
def usageAggFor (stdFn : List ℚ → Option ℚ) (usage : List UsageRow)
    (cid : ℤ) : Option (List (String × Option ℚ)) :=
  match usage.filter (fun u => u.customer_id = cid) with
  | [] => none
  | g => some (aggSpec.flatMap (fun p => p.2.map (fun op =>
      (p.1 ++ "_" ++ op,
       round4Opt (applyAgg stdFn op ((g).map (metricValue p.1)))))))

/-- Cell access in an aggregate association list with the post-`fillna(0)`
convention: an absent column or a NaN cell reads as 0.  (Also models
`row.get(col, 0)` in `load_features`.) -/
def colVal (aggs : List (String × ℚ)) (k : String) : ℚ :=
  match aggs.find? (fun p => p.1 = k) with
  | some p => p.2
  | none => 0

/-- Derived `avg_session_per_login` (etl.py lines 113-116): the denominator is
`login_count_mean.replace(0, 1)` — 0 is replaced by 1, any other value is
kept. -/
def avgSessionPerLogin (sessionMean loginMean : ℚ) : ℚ :=
  round4 (sessionMean / (if loginMean = 0 then 1 else loginMean))

/-- Derived `support_ticket_rate` (etl.py lines 118-121): denominator is
`tenure_days.replace(0, 1)`, scaled by 30. -/
def supportTicketRate (ticketsSum : ℚ) (tenure : ℤ) : ℚ :=
  round4 (ticketsSum / (if tenure = 0 then 1 else (tenure : ℚ)) * 30)

/-- Derived `engagement_score` (etl.py lines 123-127). -/
def engagementScore (loginMean sessionMean featuresMean : ℚ) : ℚ :=
  round4 (loginMean * (3/10) + sessionMean / 60 * (2/5) +
          featuresMean * (3/10))

/-- Insert into a ≤-sorted list of strings. -/
def insertSorted (s : String) : List String → List String
  | [] => [s]
  | x :: t => if s ≤ x then s :: x :: t else x :: insertSorted s t

/-- Sorted deduplicated category values of a categorical column
(`pd.get_dummies` emits one indicator column per distinct value, in sorted
order). -/
def sortedCategories (vals : List String) : List String :=
  vals.dedup.foldr insertSorted []

/-- The indicator columns `pd.get_dummies` produces for one categorical
column of one row, already cast to 0/1 integers (the
`astype(int)` step on boolean columns). -/
def oneHot (col : String) (cats : List String) (v : String) :
    List (String × ℤ) :=
  cats.map (fun cat => (col ++ "_" ++ cat, if v = cat then 1 else 0))

/-- The customer table after `transform_features` has mutated it in place:
`signup_date` converted to a datetime (an integer day number via the
external parser) and `tenure_days` added. -/
structure TransCustomerRow where
  customer_id : ℤ
  customer_code : String
  signup_date : ℤ
  age : ℚ
  gender : String
  location : String
  subscription_type : String
  monthly_charges : ℚ
  total_charges : ℚ
  contract_length : String
  payment_method : String
  paperless_billing : Bool
  churned : ℤ
  churn_date : Option String
  churn_reason : Option String
  tenure_days : ℤ
  deriving DecidableEq, Repr

/-- The in-place mutation of the customer table (etl.py lines 89–90):
`customer_df[signup_date] = pd.to_datetime(...)`;
`customer_df[tenure_days] = (datetime.now() - signup_date).dt.days`. -/
def mutateCustomer (parseDate : String → ℤ) (now : ℤ) (c : ExtractedRow) :
    TransCustomerRow :=
  { customer_id := c.customer_id
    customer_code := c.customer_code
    signup_date := parseDate c.signup_date
    age := c.age
    gender := c.gender
    location := c.location
    subscription_type := c.subscription_type
    monthly_charges := c.monthly_charges
    total_charges := c.total_charges
    contract_length := c.contract_length
    payment_method := c.payment_method
    paperless_billing := c.paperless_billing
    churned := c.churned
    churn_date := c.churn_date
    churn_reason := c.churn_reason
    tenure_days := now - parseDate c.signup_date }

/-- A feature row: customer columns (categoricals replaced by their
indicator columns, booleans cast to ints), filled aggregate columns,
and the three derived features. -/
structure FeatureRow where
  customer_id : ℤ
  customer_code : String
  signup_date : ℤ
  age : ℚ
  location : String
  monthly_charges : ℚ
  total_charges : ℚ
  paperless_billing : ℤ
  churned : ℤ
  churn_date : Option String
  churn_reason : Option String
  tenure_days : ℤ
  aggs : List (String × ℚ)
  avg_session_per_login : ℚ
  support_ticket_rate : ℚ
  engagement_score : ℚ
  dummies : List (String × ℤ)
  deriving DecidableEq, Repr, Inhabited

/-- The merged-and-filled aggregate columns of one customer: a left join
with the aggregate table on `customer_id`, then `fillna(0)` on numeric
columns (covering both the no-usage case and NaN standard deviations of
singleton groups). -/
def filledAggs (stdFn : List ℚ → Option ℚ) (usage : List UsageRow)
    (cid : ℤ) : List (String × ℚ) :=
  match usageAggFor stdFn usage cid with
  | none => aggColumnNames.map (fun n => (n, 0))
  | some l => l.map (fun p => (p.1, p.2.getD 0))

/-- One output row of `transform_features`, given the category lists of the
whole table. -/
def transformRow (stdFn : List ℚ → Option ℚ) (usage : List UsageRow)
    (genderCats subCats contractCats payCats : List String)
    (c : TransCustomerRow) : FeatureRow :=
  let aggs := filledAggs stdFn usage c.customer_id
  let loginMean := colVal aggs "login_count_mean"
  let sessionMean := colVal aggs "session_duration_minutes_mean"
  let featuresMean := colVal aggs "features_used_mean"
  let ticketsSum := colVal aggs "support_tickets_sum"
  { customer_id := c.customer_id
    customer_code := c.customer_code
    signup_date := c.signup_date
    age := c.age
    location := c.location
    monthly_charges := c.monthly_charges
    total_charges := c.total_charges
    paperless_billing := if c.paperless_billing then 1 else 0
    churned := c.churned
    churn_date := c.churn_date
    churn_reason := c.churn_reason
    tenure_days := c.tenure_days
    aggs := aggs
    avg_session_per_login := avgSessionPerLogin sessionMean loginMean
    support_ticket_rate := supportTicketRate ticketsSum c.tenure_days
    engagement_score := engagementScore loginMean sessionMean featuresMean
    dummies :=
      oneHot "gender" genderCats c.gender ++
      oneHot "subscription_type" subCats c.subscription_type ++
      oneHot "contract_length" contractCats c.contract_length ++
      oneHot "payment_method" payCats c.payment_method }

/-- Embedding of `ChurnETLPipeline.transform_features`.  Returns
the feature table together with the final values of both arguments:
`customer_df` is mutated in place (signup_date parsed, tenure_days added),
`usage_df` is left unchanged. -/
def transformFeatures (parseDate : String → ℤ) (now : ℤ)
    (stdFn : List ℚ → Option ℚ) (customer_df : List ExtractedRow)
    (usage_df : List UsageRow) :
    List FeatureRow × List TransCustomerRow × List UsageRow :=
  let mutated := customer_df.map (mutateCustomer parseDate now)
  let genderCats := sortedCategories (mutated.map (·.gender))
  let subCats := sortedCategories (mutated.map (·.subscription_type))
  let contractCats := sortedCategories (mutated.map (·.contract_length))
  let payCats := sortedCategories (mutated.map (·.payment_method))
  (mutated.map
     (transformRow stdFn usage_df genderCats subCats contractCats payCats),
   mutated, usage_df)

/-! ## `ChurnETLPipeline.load_features` -/

/-- A row of the `feature_store` table. -/
structure SnapshotRow where
  customer_id : ℤ
  feature_date : ℤ
  tenure_days : ℤ
  avg_monthly_usage : ℚ
  support_ticket_rate : ℚ
  payment_delay_days : ℚ
  feature_adoption_score : ℚ
  engagement_score : ℚ
  churn_risk_score : ℚ
  lifetime_value : ℚ
  deriving DecidableEq, Repr

/-- The snapshot record built from one feature row (etl.py lines 150–161;
`row.get(col, 0)` defaults to 0 when the column is absent). -/
def toSnapshot (today : ℤ) (r : FeatureRow) : SnapshotRow :=
  { customer_id := r.customer_id
    feature_date := today
    tenure_days := r.tenure_days
    avg_monthly_usage := colVal r.aggs "data_usage_gb_mean"
    support_ticket_rate := r.support_ticket_rate
    payment_delay_days := 0
    feature_adoption_score := colVal r.aggs "features_used_mean" / 10
    engagement_score := r.engagement_score
    churn_risk_score := 0
    lifetime_value := r.total_charges }

/-- Embedding of `ChurnETLPipeline.load_features`: delete every `feature_store` row whose
`feature_date` is today, then append the snapshot rows built from the
input. -/
def loadFeatures (store : List SnapshotRow) (today : ℤ)
    (features_df : List FeatureRow) : List SnapshotRow :=
  store.filter (fun s => s.feature_date ≠ today) ++
    features_df.map (toSnapshot today)

end Churn

namespace ChurnPredictor

open Churn

/-- A table as the predictor sees it: a column (header) list and rows of
nullable numeric cells keyed by column name (`none` is NaN; a key absent
from a row also reads as NaN). -/
structure Table where
  header : List String
  rows : List (List (String × Option ℚ))
  deriving Repr

/-- A fitted estimator and its per-row probability output
(sklearn `predict_proba(...)[:, 1]`, or the sigmoid output of the neural
network), treated as an external numerical contract. -/
def Model : Type := List ℚ → ℚ

/-- The state of a `ChurnPredictor` instance: model-type tag, optional
fitted estimator, fitted scaler (row transform), training feature-column
list, and the `is_trained` flag. -/
structure State where
  model_type : String
  model : Option Model
  scaler : List ℚ → List ℚ
  feature_columns : Option (List String)
  is_trained : Bool

/-- Embedding of the `ChurnPredictor` constructor: stores the tag unchecked; no
estimator, a fresh (unfitted, identity) scaler, no feature columns, not
trained.  The constructor performs no validation of `model_type`. -/
def init (model_type : String) : State :=
  { model_type := model_type
    model := none
    scaler := fun xs => xs
    feature_columns := none
    is_trained := false }

/-- The columns excluded from the feature set by `prepare_features`. -/
def excludeCols : List String :=
  ["customer_id", "customer_code", "churned", "churn_date",
   "churn_reason", "signup_date"]

/-- The feature columns: every input column not in the exclusion list, in
input order. -/
def featureCols (df : Table) : List String :=
  df.header.filter (fun c => ¬ (c ∈ excludeCols))

/-- Cell access with the predict-time `fillna(0)` convention: a NaN cell
(or a key absent from the row) reads as 0. -/
def fillLookup (row : List (String × Option ℚ)) (c : String) : ℚ :=
  match row.find? (fun p => p.1 = c) with
  | some (_, some v) => v
  | _ => 0

/-- Median of a list (pandas: midpoint of the two middle order
statistics). -/
def median (xs : List ℚ) : ℚ :=
  let s := xs.mergeSort (fun a b => a ≤ b)
  let n := s.length
  if n = 0 then 0
  else if n % 2 = 1 then s.getD (n / 2) 0
  else (s.getD (n / 2 - 1) 0 + s.getD (n / 2) 0) / 2

/-- Train-time cell access: a NaN cell reads as the median of the column over
the non-null cells (`X.fillna(X.median())`); a column with no non-null
cell stays NaN and is modelled as 0. -/
def medianLookup (df : Table) (row : List (String × Option ℚ))
    (c : String) : ℚ :=
  match row.find? (fun p => p.1 = c) with
  | some (_, some v) => v
  | _ => median ((df.rows.filterMap (fun r =>
      match r.find? (fun p => p.1 = c) with
      | some (_, some v) => some v
      | _ => none)))

/-- The `X` of `prepare_features`: the feature columns of every row, median
imputed. -/
def preparedX (df : Table) : List (List ℚ) :=
  df.rows.map (fun r => (featureCols df).map (medianLookup df r))

/-- Embedding of `ChurnPredictor.create_model`: the `elif` dispatch chain on
`model_type`.  Estimator construction itself is delegated to the external
libraries (the `mk` parameter); the validation structure of the chain is what is
embedded: any unrecognised tag raises
`ValueError(f"Unsupported model type: ...")`. -/
def createModel (model_type : String) (mk : String → Model) :
    Except String Model :=
  if model_type = "random_forest" then .ok (mk model_type)
  else if model_type = "xgboost" then .ok (mk model_type)
  else if model_type = "logistic_regression" then .ok (mk model_type)
  else if model_type = "gradient_boosting" then .ok (mk model_type)
  else if model_type = "neural_network" then .ok (mk model_type)
  else .error ("Unsupported model type: " ++ model_type)

/-- The two model types whose features go through the `StandardScaler`. -/
def usesScaler (model_type : String) : Bool :=
  model_type = "logistic_regression" || model_type = "neural_network"

/-- The `churned` target column of a table (`df[churned]` in
`prepare_features`), as nullable cells. -/
def targetCol (df : Table) : List (Option ℚ) :=
  df.rows.map (fun r =>
    match r.find? (fun p => p.1 = "churned") with
    | some (_, v) => v
    | none => none)

/-- Embedding of `ChurnPredictor.train`, in source order: enter the
tracking run (`mlflow.start_run`, an unguarded external call whose failure
propagates — the `runTracker` oracle), prepare features, fail when the
`churned` target column is absent, perform the stratified
`train_test_split` (an external call that raises on data it cannot
stratify — the `split` oracle), create the model (failing on an
unrecognised `model_type`), fit the scaler for the two scaled model types,
fit the estimator, set `is_trained`.  The numerical fitting (`fitScaler`,
the estimator produced by `mk` and fitted on the prepared data) is
external library work and is passed in as parameters; the metric
computation does not affect the resulting predictor state and is not
modelled. -/
def train (st : State) (df : Table) (mk : String → Model)
    (fitScaler : List (List ℚ) → List ℚ → List ℚ)
    (runTracker : Except String Unit)
    (split : List (List ℚ) → List (Option ℚ) → Except String Unit) :
    Except String State :=
  match runTracker with
  | .error e => .error e
  | .ok _ =>
    if "churned" ∈ df.header then
      match split (preparedX df) (targetCol df) with
      | .error e => .error e
      | .ok _ =>
        match createModel st.model_type mk with
        | .error e => .error e
        | .ok m =>
            .ok { st with
                  feature_columns := some (featureCols df)
                  model := some m
                  scaler := if usesScaler st.model_type
                            then fitScaler (preparedX df) else st.scaler
                  is_trained := true }
    else .error "Target variable 'churned' not found in dataset"

/-- Embedding of `ChurnPredictor.predict`: fail unless trained; select and reorder
the input columns to the training feature-column list
(`X[self.feature_columns]`, a KeyError when a training column is missing
from the input header), fill missing values with 0, apply the stored
scaler for the two scaled model types, and score each row with the fitted
estimator. -/
def predict (st : State) (X : Table) : Except String (List ℚ) :=
  if st.is_trained then
    match st.feature_columns, st.model with
    | some cols, some m =>
        if cols.all (fun c => c ∈ X.header) then
          let vals := X.rows.map (fun r => cols.map (fillLookup r))
          let scaled := if usesScaler st.model_type
                        then vals.map st.scaler else vals
          .ok (scaled.map m)
        else .error "KeyError: feature column missing from input"
    | _, _ => .error "model is not initialized"
  else .error "Model must be trained before making predictions"

end ChurnPredictor

namespace Churn

/-! ## Concrete sample data for witnesses and counterexamples -/

/-- A sample customer. -/
def cust1 : CustomerRow :=
  { customer_id := 1
    customer_code := "C001"
    signup_date := "2020-01-01"
    age := 30
    gender := "F"
    location := "NY"
    subscription_type := "basic"
    monthly_charges := 10
    total_charges := 100
    contract_length := "monthly"
    payment_method := "card"
    paperless_billing := true }

/-- A database in which customer 1 has two churn events. -/
def dbTwoEvents : Database :=
  { customers := [cust1]
    churn_events := [⟨1, "2021-01-01", "price"⟩, ⟨1, "2021-06-01", "service"⟩] }

/-- A database in which customer 1 has one churn event. -/
def dbOneEvent : Database :=
  { customers := [cust1]
    churn_events := [⟨1, "2021-01-01", "price"⟩] }

/-- A library standard-deviation stub for concrete pipeline runs (NaN
everywhere, as pandas returns for singleton groups). -/
def stdNone : List ℚ → Option ℚ := fun _ => none

/-- Two usage rows for customer 1 whose login counts average to 1/2. -/
def usageHalf : List UsageRow :=
  [{ customer_id := 1, metric_date := "2024-01-01", login_count := 0,
     session_duration_minutes := 30, features_used := 4,
     support_tickets := 2, data_usage_gb := 1 },
   { customer_id := 1, metric_date := "2024-01-02", login_count := 1,
     session_duration_minutes := 30, features_used := 6,
     support_tickets := 0, data_usage_gb := 3 }]

/-- A concrete `transform_features` run: one customer, the `usageHalf`
usage table, day-number parser stubbed to 0, clock at day 1000. -/
def exTransform : List FeatureRow :=
  (transformFeatures (fun _ => 0) 1000 stdNone [mkExtractedRow cust1 none]
    usageHalf).1

/-- The single feature row of the concrete `exTransform` run. -/
def exFeatureRow : FeatureRow := exTransform.headI

/-- A labeled training table for the predictor. -/
def dfTrain : ChurnPredictor.Table :=
  { header := ["customer_id", "churned", "age", "logins"]
    rows := [[("customer_id", some 1), ("churned", some 1), ("age", some 30),
              ("logins", some 5)],
             [("customer_id", some 2), ("churned", some 0), ("age", some 20),
              ("logins", none)]] }

/-- A stub estimator factory: every fitted model scores 1/2. -/
def mkHalf : String → ChurnPredictor.Model := fun _ => fun _ => 1/2

/-- A stub scaler fit: the identity transform. -/
def fitId : List (List ℚ) → List ℚ → List ℚ := fun _ xs => xs

/-- The state reached by training `init "random_forest"` on `dfTrain` with
the stub oracles. -/
def stTrainedRF : ChurnPredictor.State :=
  { model_type := "random_forest"
    model := some (mkHalf "random_forest")
    scaler := fun xs => xs
    feature_columns := some ["age", "logins"]
    is_trained := true }

/-- A prediction input: extra column, shuffled order, one NaN cell
(`logins` missing from the row). -/
def XPred : ChurnPredictor.Table :=
  { header := ["logins", "age", "extra"]
    rows := [[("age", some 2), ("extra", some 9)]] }

/-! ## C1: rows and churned flag of `extract_customer_data` -/

/-- C1 (counterexample): with one customer that has two `churn_events`
rows, the extract has two rows, not "exactly one row per customer": the
`LEFT JOIN` duplicates the customer once per matching event. -/
theorem extract_duplicates_on_two_events :
    (extractCustomerData dbTwoEvents none none).length = 2 ∧
    dbTwoEvents.customers.length = 1 := by
  constructor <;> rfl

/-- C1 (amended): in every extract, unconditionally, (i) the row count is
the sum over customers of max(1, number of matching churn events) — one
output row per matching churn_events row, a single padded row when there is
none — and (ii) the churned flag of every row is 1 iff some churn event
matches its customer_id; (iii) when additionally every customer_id has at
most one churn_events row, the extract has exactly one row per row of the
customers table. -/
theorem extract_one_row_per_customer (db : Database) :
    (extractCustomerData db none none).length
      = (db.customers.map (fun c => max 1
          (db.churn_events.filter
            (fun e => e.customer_id = c.customer_id)).length)).sum ∧
    (∀ r ∈ extractCustomerData db none none,
      (r.churned = 1 ↔ ∃ e ∈ db.churn_events,
        e.customer_id = r.customer_id)) ∧
    ((∀ cid : ℤ,
        (db.churn_events.filter (fun e => e.customer_id = cid)).length ≤ 1) →
      (extractCustomerData db none none).length = db.customers.length) := by
  have hjoin : extractCustomerData db none none
      = db.customers.flatMap (leftJoinCustomer db.churn_events) := by
    simp [extractCustomerData, truthy]
  have hcnt : ∀ c : CustomerRow, (leftJoinCustomer db.churn_events c).length
      = max 1 (db.churn_events.filter
          (fun e => e.customer_id = c.customer_id)).length := by
    intro c
    unfold leftJoinCustomer
    cases hm : db.churn_events.filter (fun e => e.customer_id = c.customer_id) with
    | nil => simp
    | cons e t =>
        simp only [List.length_map, List.length_cons]
        omega
  refine ⟨?_, ?_, ?_⟩
  · rw [hjoin]
    induction db.customers with
    | nil => rfl
    | cons c t ih =>
        simp only [List.flatMap_cons, List.length_append, List.map_cons,
          List.sum_cons, hcnt c, ih]
  · intro r hr
    rw [hjoin] at hr
    obtain ⟨c, hc, hrc⟩ := List.mem_flatMap.mp hr
    unfold leftJoinCustomer at hrc
    cases hm : db.churn_events.filter (fun e => e.customer_id = c.customer_id) with
    | nil =>
        rw [hm] at hrc
        simp only [List.mem_singleton] at hrc
        subst hrc
        constructor
        · intro h1
          simp [mkExtractedRow] at h1
        · rintro ⟨e, he, heq⟩
          have hmem : e ∈ db.churn_events.filter
              (fun e => e.customer_id = c.customer_id) := by
            rw [List.mem_filter]
            refine ⟨he, ?_⟩
            simp only [mkExtractedRow] at heq
            simp [heq]
          rw [hm] at hmem
          simp at hmem
    | cons e0 t =>
        rw [hm] at hrc
        simp only [List.mem_map] at hrc
        obtain ⟨e, he, hre⟩ := hrc
        subst hre
        constructor
        · intro _
          have hmem : e ∈ db.churn_events.filter
              (fun e => e.customer_id = c.customer_id) := hm ▸ he
          rw [List.mem_filter] at hmem
          refine ⟨e, hmem.1, ?_⟩
          have := hmem.2
          simp at this
          simp [mkExtractedRow, this]
        · intro _
          simp [mkExtractedRow]
  · intro h
    rw [hjoin]
    have hone : ∀ c : CustomerRow,
        (leftJoinCustomer db.churn_events c).length = 1 := by
      intro c
      rw [hcnt c]
      have := h c.customer_id
      omega
    induction db.customers with
    | nil => rfl
    | cons c t ih =>
        simp only [List.flatMap_cons, List.length_append, List.length_cons,
          hone c, ih]
        omega

/-- C1 (witness): on the one-customer one-event database the extract has
the summed row count, the churned flag of every row is 1 iff an event
matches, and (the at-most-one-event hypothesis holding there) exactly one
row per customer. -/
theorem extract_one_row_per_customer_witness :
    (extractCustomerData dbOneEvent none none).length
      = (dbOneEvent.customers.map (fun c => max 1
          (dbOneEvent.churn_events.filter
            (fun e => e.customer_id = c.customer_id)).length)).sum ∧
    (∀ r ∈ extractCustomerData dbOneEvent none none,
      (r.churned = 1 ↔ ∃ e ∈ dbOneEvent.churn_events,
        e.customer_id = r.customer_id)) ∧
    (extractCustomerData dbOneEvent none none).length
      = dbOneEvent.customers.length := by
  obtain ⟨h1, h2, h3⟩ := extract_one_row_per_customer dbOneEvent
  exact ⟨h1, h2,
    h3 (fun _ => le_trans (List.length_filter_le _ _) (le_refl 1))⟩

/-! ## C2: which aggregates `transform_features` computes -/

/-- C2 (counterexample): on a concrete usage table the aggregate row
contains no `features_used_sum` and no `support_tickets_std` column — the
code aggregates `features_used` with mean/max/std (no sum) and
`support_tickets` with sum/mean (no std), contradicting the claim that
mean, sum and std are computed for all five metrics. -/
theorem agg_missing_claimed_columns :
    exTransform.map (fun r => r.aggs.find? (fun p => p.1 = "features_used_sum"))
      = [none] ∧
    exTransform.map (fun r => r.aggs.find? (fun p => p.1 = "support_tickets_std"))
      = [none] ∧
    exTransform.map (fun r => (r.aggs.find? (fun p => p.1 = "features_used_max")).isSome)
      = [true] := by
  refine ⟨?_, ?_, ?_⟩ <;> rfl

/-- C2 (amended): for every customer with at least one usage row, the
aggregate row computed per `customer_id` group consists of exactly these
columns, in this order: mean/sum/std of `login_count`,
`session_duration_minutes` and `data_usage_gb`; mean/max/std of
`features_used`; sum/mean of `support_tickets` — the mean as the group
mean, the sum as the group sum, the max as the group max, the std as the
sample standard deviation of the external library, each rounded to 4 decimal
places. -/
theorem transform_agg_ops (stdFn : List ℚ → Option ℚ)
    (usage : List UsageRow) (cid : ℤ)
    (h : usage.filter (fun u => u.customer_id = cid) ≠ []) :
    usageAggFor stdFn usage cid = some
      [       ("login_count_mean",
        some (round4 (listMean ((usage.filter (fun u => u.customer_id = cid)).map (·.login_count))))),
       ("login_count_sum",
        some (round4 ((usage.filter (fun u => u.customer_id = cid)).map (·.login_count)).sum)),
       ("login_count_std",
        round4Opt (stdFn ((usage.filter (fun u => u.customer_id = cid)).map (·.login_count)))),
       ("session_duration_minutes_mean",
        some (round4 (listMean ((usage.filter (fun u => u.customer_id = cid)).map (·.session_duration_minutes))))),
       ("session_duration_minutes_sum",
        some (round4 ((usage.filter (fun u => u.customer_id = cid)).map (·.session_duration_minutes)).sum)),
       ("session_duration_minutes_std",
        round4Opt (stdFn ((usage.filter (fun u => u.customer_id = cid)).map (·.session_duration_minutes)))),
       ("features_used_mean",
        some (round4 (listMean ((usage.filter (fun u => u.customer_id = cid)).map (·.features_used))))),
       ("features_used_max",
        some (round4 (listMax ((usage.filter (fun u => u.customer_id = cid)).map (·.features_used))))),
       ("features_used_std",
        round4Opt (stdFn ((usage.filter (fun u => u.customer_id = cid)).map (·.features_used)))),
       ("support_tickets_sum",
        some (round4 ((usage.filter (fun u => u.customer_id = cid)).map (·.support_tickets)).sum)),
       ("support_tickets_mean",
        some (round4 (listMean ((usage.filter (fun u => u.customer_id = cid)).map (·.support_tickets))))),
       ("data_usage_gb_mean",
        some (round4 (listMean ((usage.filter (fun u => u.customer_id = cid)).map (·.data_usage_gb))))),
       ("data_usage_gb_sum",
        some (round4 ((usage.filter (fun u => u.customer_id = cid)).map (·.data_usage_gb)).sum)),
       ("data_usage_gb_std",
        round4Opt (stdFn ((usage.filter (fun u => u.customer_id = cid)).map (·.data_usage_gb))))] := by
  rcases hG : usage.filter (fun u => u.customer_id = cid) with _ | ⟨a, t⟩
  · exact absurd hG h
  · unfold usageAggFor
    rw [hG]
    have h1 : metricValue "login_count" = fun u : UsageRow => u.login_count := by
      funext u; simp [metricValue]
    have h2 : metricValue "session_duration_minutes"
        = fun u : UsageRow => u.session_duration_minutes := by
      funext u; simp [metricValue]
    have h3 : metricValue "features_used"
        = fun u : UsageRow => u.features_used := by
      funext u; simp [metricValue]
    have h4 : metricValue "support_tickets"
        = fun u : UsageRow => u.support_tickets := by
      funext u; simp [metricValue]
    have h5 : metricValue "data_usage_gb"
        = fun u : UsageRow => u.data_usage_gb := by
      funext u; simp [metricValue]
    simp [aggSpec, applyAgg, round4Opt, h1, h2, h3, h4, h5]

/-- C2 (witness): the amended aggregate structure evaluated on the
concrete two-row usage table. -/
theorem transform_agg_ops_witness :
    usageAggFor stdNone usageHalf 1 = some
      [("login_count_mean", some (1/2)), ("login_count_sum", some 1),
       ("login_count_std", none),
       ("session_duration_minutes_mean", some 30),
       ("session_duration_minutes_sum", some 60),
       ("session_duration_minutes_std", none),
       ("features_used_mean", some 5), ("features_used_max", some 6),
       ("features_used_std", none),
       ("support_tickets_sum", some 2), ("support_tickets_mean", some 1),
       ("data_usage_gb_mean", some 2), ("data_usage_gb_sum", some 4),
       ("data_usage_gb_std", none)] := by
  have h := transform_agg_ops stdNone usageHalf 1 (by decide)
  rw [h]
  simp [usageHalf, stdNone, round4Opt, listMean, listMax]
  norm_num [round4, roundHalfEven, max_def]


/-! ## C3: the feature-store snapshot after `load_features` -/

/-- C3: after `load_features`, the rows dated today are exactly the
snapshots of the input of that call (delete-then-insert); when the input has one
row per customer there is at most one snapshot per customer for that date;
and running `load_features` twice for the same date leaves exactly the row
count of the second run. -/
theorem loadFeatures_snapshot (store : List SnapshotRow) (today : ℤ)
    (input : List FeatureRow) (h : (input.map (·.customer_id)).Nodup) :
    ((loadFeatures store today input).filter (fun s => s.feature_date = today))
      = input.map (toSnapshot today) ∧
    (((loadFeatures store today input).filter
        (fun s => s.feature_date = today)).map (·.customer_id)).Nodup ∧
    ∀ in1 : List FeatureRow,
      ((loadFeatures (loadFeatures store today in1) today input).filter
        (fun s => s.feature_date = today)).length = input.length := by
  have key : ∀ (st : List SnapshotRow) (inp : List FeatureRow),
      ((loadFeatures st today inp).filter (fun s => s.feature_date = today))
        = inp.map (toSnapshot today) := by
    intro st inp
    unfold loadFeatures
    rw [List.filter_append]
    have h1 : (st.filter (fun s => s.feature_date ≠ today)).filter
        (fun s => s.feature_date = today) = [] := by
      rw [List.filter_filter, List.filter_eq_nil_iff]
      intro a _
      by_cases hd : a.feature_date = today <;> simp [hd]
    have h2 : (inp.map (toSnapshot today)).filter
        (fun s => s.feature_date = today) = inp.map (toSnapshot today) := by
      apply List.filter_eq_self.mpr
      intro s hs
      obtain ⟨r, _, hr⟩ := List.mem_map.mp hs
      subst hr
      simp [toSnapshot]
    rw [h1, h2, List.nil_append]
  refine ⟨key store input, ?_, fun in1 => ?_⟩
  · rw [key store input, List.map_map]
    exact h
  · rw [key (loadFeatures store today in1) input, List.length_map]

/-- C3 (witness): loading the concrete one-row feature table twice on day 5
leaves exactly that one snapshot row for day 5. -/
theorem loadFeatures_snapshot_witness :
    ((loadFeatures [] 5 exTransform).filter (fun s => s.feature_date = 5))
      = exTransform.map (toSnapshot 5) ∧
    (((loadFeatures [] 5 exTransform).filter
        (fun s => s.feature_date = 5)).map (·.customer_id)).Nodup ∧
    ∀ in1 : List FeatureRow,
      ((loadFeatures (loadFeatures [] 5 in1) 5 exTransform).filter
        (fun s => s.feature_date = 5)).length = exTransform.length :=
  loadFeatures_snapshot [] 5 exTransform (by decide)


/-! ## C4: the predict contract of `ChurnPredictor` -/

/-- C4: on an untrained instance, `predict` fails with the configuration
error; after a successful `train` on a labeled sample (the tracking-run
start and the stratified split oracles having succeeded on it, as a
successful train implies), `predict` returns exactly one churn probability
per input row, each in [0,1] (granted the external estimator honours the
`predict_proba` range contract, the `hm` hypothesis). -/
theorem churn_predict_contract (st st' : ChurnPredictor.State)
    (df X : ChurnPredictor.Table) (mk : String → ChurnPredictor.Model)
    (fitScaler : List (List ℚ) → List ℚ → List ℚ)
    (runTracker : Except String Unit)
    (split : List (List ℚ) → List (Option ℚ) → Except String Unit)
    (h0 : st.is_trained = false)
    (htrain : ChurnPredictor.train st df mk fitScaler runTracker split
      = .ok st')
    (hm : ∀ t xs, 0 ≤ mk t xs ∧ mk t xs ≤ 1)
    (hcols : ∀ c ∈ ChurnPredictor.featureCols df, c ∈ X.header) :
    ChurnPredictor.predict st X
      = .error "Model must be trained before making predictions" ∧
    ∃ ps, ChurnPredictor.predict st' X = .ok ps ∧
      ps.length = X.rows.length ∧ ∀ p ∈ ps, 0 ≤ p ∧ p ≤ 1 := by
  constructor
  · simp [ChurnPredictor.predict, h0]
  · unfold ChurnPredictor.train at htrain
    cases runTracker with
    | error e => exact absurd htrain (by simp)
    | ok u =>
        by_cases hch : "churned" ∈ df.header
        · simp only [if_pos hch] at htrain
          cases hsp : split (ChurnPredictor.preparedX df)
              (ChurnPredictor.targetCol df) with
          | error e => rw [hsp] at htrain; exact absurd htrain (by simp)
          | ok v =>
              rw [hsp] at htrain
              cases hcm : ChurnPredictor.createModel st.model_type mk with
              | error e => rw [hcm] at htrain; exact absurd htrain (by simp)
              | ok m =>
                  rw [hcm] at htrain
                  simp only [Except.ok.injEq] at htrain
                  subst htrain
                  have hmeq : m = mk st.model_type := by
                    unfold ChurnPredictor.createModel at hcm
                    split_ifs at hcm <;> simp_all
                  have hall : (ChurnPredictor.featureCols df).all
                      (fun c => decide (c ∈ X.header)) = true := by
                    rw [List.all_eq_true]
                    intro c hc
                    simp [hcols c hc]
                  unfold ChurnPredictor.predict
                  simp only [hall, if_true, if_pos]
                  refine ⟨_, rfl, ?_, ?_⟩
                  · by_cases hs : ChurnPredictor.usesScaler st.model_type <;>
                      simp [hs]
                  · intro p hp
                    by_cases hs : ChurnPredictor.usesScaler st.model_type <;>
                      simp [hs] at hp <;>
                      obtain ⟨row, _, hrow⟩ := hp <;>
                      rw [← hrow, hmeq] <;>
                      exact hm st.model_type _
        · rw [if_neg hch] at htrain
          exact absurd htrain (by simp)

/-- C4 (witness): the contract evaluated with the stub estimator and
always-succeeding tracking and split oracles on concrete tables: one
probability (1/2) for the one input row. -/
theorem churn_predict_contract_witness :
    ChurnPredictor.predict (ChurnPredictor.init "random_forest") XPred
      = .error "Model must be trained before making predictions" ∧
    ∃ ps, ChurnPredictor.predict stTrainedRF XPred = .ok ps ∧
      ps.length = XPred.rows.length ∧ ∀ p ∈ ps, 0 ≤ p ∧ p ≤ 1 :=
  churn_predict_contract (ChurnPredictor.init "random_forest") stTrainedRF
    dfTrain XPred mkHalf fitId (Except.ok ()) (fun _ _ => Except.ok ())
    rfl rfl (fun _ _ => by norm_num [mkHalf]) (by decide)

/-! ## C5: the derived ratio features -/

/-- C5 (counterexample): on the concrete run, `login_count_mean` is 1/2 and
`session_duration_minutes_mean` is 30; the code computes
`avg_session_per_login = 60` (division by the mean itself, since
`.replace(0, 1)` only substitutes for an exact 0), while the claimed
`max(login_count_mean, 1)` denominator would give 30. -/
theorem avg_session_uses_replace_not_max :
    exFeatureRow.avg_session_per_login = 60 ∧
    colVal exFeatureRow.aggs "session_duration_minutes_mean" = 30 ∧
    colVal exFeatureRow.aggs "login_count_mean" = 1/2 ∧
    round4 (colVal exFeatureRow.aggs "session_duration_minutes_mean" /
      max (colVal exFeatureRow.aggs "login_count_mean") 1) = 30 ∧
    (60 : ℚ) ≠ 30 := by
  refine ⟨?_, ?_, ?_, ?_, by norm_num⟩ <;>
  · simp [exFeatureRow, exTransform, transformFeatures, transformRow,
      mutateCustomer, filledAggs, usageAggFor, usageHalf, aggSpec, applyAgg,
      metricValue, colVal, avgSessionPerLogin, listMean, listMax, round4Opt,
      mkExtractedRow, cust1, stdNone]
    norm_num [round4, roundHalfEven, max_def]

/-- C5 (amended): in every feature row, `avg_session_per_login` is the
session mean divided by the login mean with an exact 0 replaced by 1
(`.replace(0, 1)`, not `max(·, 1)`), and `support_ticket_rate` is the
ticket sum divided by `tenure_days` with an exact 0 replaced by 1, times
30, both rounded to 4 decimals. -/
theorem derived_features_formula (parseDate : String → ℤ) (now : ℤ)
    (stdFn : List ℚ → Option ℚ) (customer_df : List ExtractedRow)
    (usage_df : List UsageRow) (fr : FeatureRow)
    (hfr : fr ∈ (transformFeatures parseDate now stdFn customer_df usage_df).1) :
    fr.avg_session_per_login
      = round4 (colVal fr.aggs "session_duration_minutes_mean" /
          (if colVal fr.aggs "login_count_mean" = 0 then 1
           else colVal fr.aggs "login_count_mean")) ∧
    fr.support_ticket_rate
      = round4 (colVal fr.aggs "support_tickets_sum" /
          (if fr.tenure_days = 0 then 1 else (fr.tenure_days : ℚ)) * 30) := by
  simp only [transformFeatures, List.mem_map] at hfr
  obtain ⟨c, _, hc⟩ := hfr
  subst hc
  constructor <;> rfl

/-- C5 (witness): the amended formulas evaluated on the concrete feature
row. -/
theorem derived_features_formula_witness :
    exFeatureRow.avg_session_per_login
      = round4 (colVal exFeatureRow.aggs "session_duration_minutes_mean" /
          (if colVal exFeatureRow.aggs "login_count_mean" = 0 then 1
           else colVal exFeatureRow.aggs "login_count_mean")) ∧
    exFeatureRow.support_ticket_rate
      = round4 (colVal exFeatureRow.aggs "support_tickets_sum" /
          (if exFeatureRow.tenure_days = 0 then 1
           else (exFeatureRow.tenure_days : ℚ)) * 30) :=
  derived_features_formula (fun _ => 0) 1000 stdNone
    [mkExtractedRow cust1 none] usageHalf exFeatureRow (List.Mem.head _)

/-! ## C6: rejection of unknown model types -/

/-- C6 (counterexample): `ChurnPredictor.__init__` performs no validation:
constructing a predictor with the unknown model type "bogus" succeeds and
returns a normal untrained instance (no value error is raised — the
`elif`-chain that raises lives in `create_model`, reached via `train`). -/
theorem init_accepts_unknown_type :
    ChurnPredictor.init "bogus"
      = { model_type := "bogus", model := none, scaler := fun xs => xs,
          feature_columns := none, is_trained := false } ∧
    (ChurnPredictor.init "bogus").is_trained = false :=
  ⟨rfl, rfl⟩

/-- C6 (amended): the constructor accepts any string; it is `create_model`
— reached by `train` after the tracking-run start, the churned-column
check and the stratified split — that fails for a model type outside the
five supported ones, with a value error naming the invalid type.  The
tracking run and the split are external calls that can themselves fail
first; the theorem takes their success (on this table) as hypotheses. -/
theorem create_model_rejects_unknown (t : String)
    (ht : t ∉ ["random_forest", "xgboost", "logistic_regression",
               "gradient_boosting", "neural_network"])
    (mk : String → ChurnPredictor.Model) (df : ChurnPredictor.Table)
    (fitScaler : List (List ℚ) → List ℚ → List ℚ)
    (split : List (List ℚ) → List (Option ℚ) → Except String Unit)
    (hch : "churned" ∈ df.header)
    (hsp : split (ChurnPredictor.preparedX df) (ChurnPredictor.targetCol df)
      = .ok ()) :
    ChurnPredictor.createModel t mk
      = .error ("Unsupported model type: " ++ t) ∧
    ChurnPredictor.train (ChurnPredictor.init t) df mk fitScaler
        (Except.ok ()) split
      = .error ("Unsupported model type: " ++ t) := by
  simp only [List.mem_cons, List.not_mem_nil, or_false, not_or] at ht
  obtain ⟨h1, h2, h3, h4, h5⟩ := ht
  have hcm : ChurnPredictor.createModel t mk
      = .error ("Unsupported model type: " ++ t) := by
    simp [ChurnPredictor.createModel, h1, h2, h3, h4, h5]
  refine ⟨hcm, ?_⟩
  have hmt : (ChurnPredictor.init t).model_type = t := rfl
  simp only [ChurnPredictor.train, hmt]
  rw [if_pos hch, hsp, hcm]

/-- C6 (witness): training a predictor constructed with "bogus" on a
labeled table — with the tracking run started and the stratified split
succeeding — fails with the error naming "bogus". -/
theorem create_model_rejects_unknown_witness :
    ChurnPredictor.createModel "bogus" mkHalf
      = .error ("Unsupported model type: " ++ "bogus") ∧
    ChurnPredictor.train (ChurnPredictor.init "bogus") dfTrain mkHalf fitId
        (Except.ok ()) (fun _ _ => Except.ok ())
      = .error ("Unsupported model type: " ++ "bogus") :=
  create_model_rejects_unknown "bogus" (by decide) mkHalf dfTrain fitId
    (fun _ _ => Except.ok ()) (by decide) rfl

/-! ## C7: the engagement score -/

/-- C7: the engagement score of every feature row equals
0.3·login_count_mean + 0.4·(session_duration_minutes_mean/60) +
0.3·features_used_mean rounded to 4 decimals — a deterministic function of
the three means — and (10, 30, 5) evaluates to 4.7. -/
theorem engagement_score_formula (parseDate : String → ℤ) (now : ℤ)
    (stdFn : List ℚ → Option ℚ) (customer_df : List ExtractedRow)
    (usage_df : List UsageRow) (fr : FeatureRow)
    (hfr : fr ∈ (transformFeatures parseDate now stdFn customer_df usage_df).1) :
    fr.engagement_score
      = round4 ((3/10) * colVal fr.aggs "login_count_mean"
          + (2/5) * (colVal fr.aggs "session_duration_minutes_mean" / 60)
          + (3/10) * colVal fr.aggs "features_used_mean") ∧
    engagementScore 10 30 5 = 47/10 := by
  constructor
  · simp only [transformFeatures, List.mem_map] at hfr
    obtain ⟨c, _, hc⟩ := hfr
    subst hc
    simp only [transformRow]
    unfold engagementScore
    congr 1
    ring
  · norm_num [engagementScore, round4, roundHalfEven]

/-- C7 (witness): the engagement-score formula evaluated on the concrete
feature row. -/
theorem engagement_score_formula_witness :
    exFeatureRow.engagement_score
      = round4 ((3/10) * colVal exFeatureRow.aggs "login_count_mean"
          + (2/5) * (colVal exFeatureRow.aggs "session_duration_minutes_mean" / 60)
          + (3/10) * colVal exFeatureRow.aggs "features_used_mean") ∧
    engagementScore 10 30 5 = 47/10 :=
  engagement_score_formula (fun _ => 0) 1000 stdNone
    [mkExtractedRow cust1 none] usageHalf exFeatureRow (List.Mem.head _)

/-! ## C8: predict-time column selection and zero imputation -/

/-- C8: `predict` on a trained instance scores exactly the input columns
selected and reordered to the training feature-column list, with every
missing (NaN) value filled with 0 — constantly 0, never a training-time
median — before the optional scaling and the estimator; in particular a
NaN cell and an explicit 0 cell are interchangeable, and the imputed value
of a NaN cell is 0. -/
theorem predict_selects_and_imputes_zero (st : ChurnPredictor.State)
    (cols : List String) (m : ChurnPredictor.Model)
    (X : ChurnPredictor.Table)
    (h1 : st.is_trained = true) (h2 : st.feature_columns = some cols)
    (h3 : st.model = some m) (hcols : ∀ c ∈ cols, c ∈ X.header) :
    ChurnPredictor.predict st X
      = .ok ((if ChurnPredictor.usesScaler st.model_type
              then (X.rows.map (fun r => cols.map (ChurnPredictor.fillLookup r))).map
                st.scaler
              else X.rows.map (fun r => cols.map (ChurnPredictor.fillLookup r))).map
          m) ∧
    (∀ r c, r.find? (fun p => p.1 = c) = none →
      ChurnPredictor.fillLookup r c = 0) ∧
    ∀ (r : List (String × Option ℚ)) (c : String),
      r.find? (fun p => p.1 = c) = some (c, none) →
      ChurnPredictor.fillLookup r c = 0 := by
  refine ⟨?_, ?_, ?_⟩
  · have hall : cols.all (fun c => decide (c ∈ X.header)) = true := by
      rw [List.all_eq_true]
      intro c hc
      simp [hcols c hc]
    unfold ChurnPredictor.predict
    rw [h1, h2, h3]
    simp only [hall, if_true]
  · intro r c hf
    unfold ChurnPredictor.fillLookup
    rw [hf]
  · intro r c hf
    unfold ChurnPredictor.fillLookup
    rw [hf]

/-- C8 (witness): predicting on a table with an extra column, shuffled
column order and a NaN `logins` cell scores the zero-imputed reordered row
[age, logins] = [2, 0]. -/
theorem predict_selects_and_imputes_zero_witness :
    ChurnPredictor.predict stTrainedRF XPred
      = .ok ((if ChurnPredictor.usesScaler stTrainedRF.model_type
              then (XPred.rows.map
                (fun r => ["age", "logins"].map (ChurnPredictor.fillLookup r))).map
                stTrainedRF.scaler
              else XPred.rows.map
                (fun r => ["age", "logins"].map (ChurnPredictor.fillLookup r))).map
          (mkHalf "random_forest")) ∧
    (∀ r c, r.find? (fun p => p.1 = c) = none →
      ChurnPredictor.fillLookup r c = 0) ∧
    ∀ (r : List (String × Option ℚ)) (c : String),
      r.find? (fun p => p.1 = c) = some (c, none) →
      ChurnPredictor.fillLookup r c = 0 :=
  predict_selects_and_imputes_zero stTrainedRF ["age", "logins"]
    (mkHalf "random_forest") XPred rfl rfl rfl (by decide)

/-! ## C9: a single date bound applies no filtering -/

/-- C9: when exactly one of `start_date` and `end_date` is `None`, the
`WHERE signup_date BETWEEN` clause is not appended (the guard requires both
to be truthy), so the extract equals the unfiltered one. -/
theorem extract_single_bound_no_filter (db : Database)
    (start_date end_date : Option String)
    (h : start_date = none ∨ end_date = none) :
    extractCustomerData db start_date end_date
      = extractCustomerData db none none := by
  rcases h with h | h <;> subst h <;>
    simp [extractCustomerData, truthy]

/-- C9 (witness): a lone start date on the concrete database returns the
same extract as no dates at all. -/
theorem extract_single_bound_no_filter_witness :
    extractCustomerData dbOneEvent (some "2019-01-01") none
      = extractCustomerData dbOneEvent none none :=
  extract_single_bound_no_filter dbOneEvent (some "2019-01-01") none
    (Or.inr rfl)

/-! ## C10: `transform_features` mutates its customer argument in place -/

/-- C10: after `transform_features`, the customer table of the caller has been
mutated in place — `signup_date` parsed to a datetime and a `tenure_days`
column added, all other columns untouched — while the usage table is
returned unchanged. -/
theorem transform_mutates_customers (parseDate : String → ℤ) (now : ℤ)
    (stdFn : List ℚ → Option ℚ) (customer_df : List ExtractedRow)
    (usage_df : List UsageRow) :
    (transformFeatures parseDate now stdFn customer_df usage_df).2
      = (customer_df.map (fun c =>
          { customer_id := c.customer_id
            customer_code := c.customer_code
            signup_date := parseDate c.signup_date
            age := c.age
            gender := c.gender
            location := c.location
            subscription_type := c.subscription_type
            monthly_charges := c.monthly_charges
            total_charges := c.total_charges
            contract_length := c.contract_length
            payment_method := c.payment_method
            paperless_billing := c.paperless_billing
            churned := c.churned
            churn_date := c.churn_date
            churn_reason := c.churn_reason
            tenure_days := now - parseDate c.signup_date }),
         usage_df) :=
  rfl

end Churn
